import Mathlib

/-! # SS-GraphQL: the schema's resolvers over a REST store

A shallow embedding of `schema/schema.js`: the two object types, the two query
entry points and the three mutations, each with the `resolve` function the
source gives it.  The REST store behind `axios` is a parameter of every
resolver, and every call made to `axios` is recorded, so that statements of
the form "exactly one request is issued" can be made about the code.  The
execution engine that calls the resolvers is not part of the source; where a
statement needs it, it is modelled from the specification.
-/

set_option autoImplicit false

namespace SSGraphQL

/-! ## JavaScript values -/

/-- The JavaScript values a resolver can meet: what `JSON.parse` yields on a
response body, what the execution engine puts into `args`, and `undefined`
(the value of a property that is not there).  A number is given by the text
JavaScript converts it to (`7`, `-2`, `1.5`, `1e+21`): the code does nothing to
a number but interpolate it and pass it on, and two numbers with the same text
are the same to it.  An object is its own properties in lookup order. -/
inductive JSValue where
  | undefined
  | null
  | bool (b : Bool)
  | num (text : String)
  | str (s : String)
  | arr (items : List JSValue)
  | obj (fields : List (String × JSValue))

/-- The argument object the execution engine hands to a resolver: always a
plain object, given here by its properties. -/
abbrev Args := List (String × JSValue)

/-- Why an HTTP exchange failed in `axios`: no response at all, or a response
whose status is outside `2xx`. -/
inductive HttpError where
  | network
  | status (code : Nat)
  deriving DecidableEq, Repr

/-- What a resolver can fail with: a `TypeError` thrown while the request is
being built, or the rejection of the `axios` promise. -/
inductive JSError where
  | typeError
  | rejected (e : HttpError)
  deriving DecidableEq, Repr

/-- Own-property lookup in a property list; `undefined` when the key is
missing. -/
def lookup (k : String) : List (String × JSValue) → JSValue
  | [] => .undefined
  | (k', v) :: rest => if k' = k then v else lookup k rest

/-- Whether a property list has the key. -/
def hasKey (k : String) : List (String × JSValue) → Bool
  | [] => false
  | (k', _) :: rest => if k' = k then true else hasKey k rest

/-- Property access `v.k` for the keys the source reads (`id`, `companyId`),
none of which lives on a prototype: `none`, for the `TypeError` thrown, on
`null` and `undefined`; the own property on an object; `undefined` on every
other value. -/
def getProp (v : JSValue) (k : String) : Option JSValue :=
  match v with
  | .undefined => none
  | .null => none
  | .obj fields => some (lookup k fields)
  | _ => some .undefined

mutual
/-- String conversion as done by a template literal `${v}`; `none` when the
conversion throws a `TypeError`.  An array is its elements joined by commas,
with `null` and `undefined` elements empty.  An object is `[object Object]`
unless it has an own `toString` property, which in a parsed JSON value is never
callable, so that the conversion throws. -/
def toStr : JSValue → Option String
  | .undefined => some "undefined"
  | .null => some "null"
  | .bool b => some (if b then "true" else "false")
  | .num text => some text
  | .str s => some s
  | .arr items =>
    match itemStrs items with
    | none => none
    | some parts => some (String.intercalate "," parts)
  | .obj fields => if hasKey "toString" fields then none else some "[object Object]"
/-- The strings `Array.prototype.join` puts between the separators: the string
conversion of each element, empty for `null` and `undefined`. -/
def itemStrs : List JSValue → Option (List String)
  | [] => some []
  | x :: rest =>
    match itemStrs rest with
    | none => none
    | some parts =>
      match x with
      | .undefined => some ("" :: parts)
      | .null => some ("" :: parts)
      | _ =>
        match toStr x with
        | none => none
        | some a => some (a :: parts)
end

/-! ## The HTTP client -/

/-- The HTTP methods the source calls on `axios`. -/
inductive Method where
  | GET
  | POST
  | PATCH
  | DELETE
  deriving DecidableEq, Repr

/-- One call made to `axios`: the method, the URL string passed to it, and the
value passed as request body, if any. -/
structure Request where
  method : Method
  url : String
  data : Option JSValue

/-- The response object `axios` resolves with; `data` is the parsed body. -/
structure Response where
  status : Nat
  data : JSValue

/-- The REST store as the code sees it through `axios`: for each request either
a response, or the failure `axios` rejects with. -/
abbrev Store := Request → Except HttpError Response

/-- What calling a resolver amounts to: the requests handed to `axios`, in
order, and the value the returned promise fulfils with, or the failure. -/
structure Promise (α : Type) where
  requests : List Request
  settled : Except JSError α

/-- A resolver that throws before it has called `axios`. -/
def Promise.thrown {α : Type} (e : JSError) : Promise α :=
  ⟨[], .error e⟩

/-- The method `.then(f)` for a callback that returns a plain value: the same
requests, `f` applied to the fulfilment value, a rejection passed on. -/
def Promise.andThen {α β : Type} (p : Promise α) (f : α → β) : Promise β :=
  ⟨p.requests, match p.settled with
    | .ok a => .ok (f a)
    | .error e => .error e⟩

/-- Issue one request: it is recorded, and the promise settles as the store
answers. -/
def axios.request (store : Store) (req : Request) : Promise Response :=
  ⟨[req], match store req with
    | .ok res => .ok res
    | .error e => .error (.rejected e)⟩

/-- The call `axios.get(url)`. -/
def axios.get (store : Store) (url : String) : Promise Response :=
  axios.request store ⟨.GET, url, none⟩

/-- The call `axios.post(url, data)`. -/
def axios.post (store : Store) (url : String) (data : JSValue) : Promise Response :=
  axios.request store ⟨.POST, url, some data⟩

/-- The call `axios.patch(url, data)`. -/
def axios.patch (store : Store) (url : String) (data : JSValue) : Promise Response :=
  axios.request store ⟨.PATCH, url, some data⟩

/-- The call `axios.delete(url)`. -/
def axios.delete (store : Store) (url : String) : Promise Response :=
  axios.request store ⟨.DELETE, url, none⟩

/-! ## The resolvers of `schema.js` -/

/-- A resolver: `resolve(parentValue, args)`, with the store behind `axios`. -/
abbrev Resolver := Store → JSValue → Args → Promise JSValue

/-- The resolver of `Company.users` (schema.js, lines 26-31). -/
def CompanyType.users.resolve : Resolver := fun store parentValue _args =>
  match getProp parentValue "id" with
  | none => Promise.thrown .typeError
  | some id =>
    match toStr id with
    | none => Promise.thrown .typeError
    | some s =>
      (axios.get store ("http://localhost:3000/companies/" ++ s ++ "/users")).andThen
        (fun res => res.data)

/-- The resolver of `User.company` (schema.js, lines 48-52). -/
def UserType.company.resolve : Resolver := fun store parentValue _args =>
  match getProp parentValue "companyId" with
  | none => Promise.thrown .typeError
  | some companyId =>
    match toStr companyId with
    | none => Promise.thrown .typeError
    | some s =>
      (axios.get store ("http://localhost:3000/companies/" ++ s)).andThen
        (fun res => res.data)

/-- The resolver of the query `user` (schema.js, lines 65-70). -/
def RootQuery.user.resolve : Resolver := fun store _parentValue args =>
  match toStr (lookup "id" args) with
  | none => Promise.thrown .typeError
  | some s =>
    (axios.get store ("http://localhost:3000/users/" ++ s)).andThen
      (fun resp => resp.data)

/-- The resolver of the query `company` (schema.js, lines 75-79). -/
def RootQuery.company.resolve : Resolver := fun store _parentValue args =>
  match toStr (lookup "id" args) with
  | none => Promise.thrown .typeError
  | some s =>
    (axios.get store ("http://localhost:3000/companies/" ++ s)).andThen
      (fun resp => resp.data)

/-- The resolver of the mutation `addUser` (schema.js, lines 101-105): `firstName`
and `age` are destructured off `args` and a fresh two-key object is posted. -/
def mutation.addUser.resolve : Resolver := fun store _parentValue args =>
  let firstName := lookup "firstName" args
  let age := lookup "age" args
  (axios.post store "http://localhost:3000/users"
      (.obj [("firstName", firstName), ("age", age)])).andThen
    (fun res => res.data)

/-- The resolver of the mutation `deleteUser` (schema.js, lines 114-118). -/
def mutation.deleteUser.resolve : Resolver := fun store _parentValue args =>
  let id := lookup "id" args
  match toStr id with
  | none => Promise.thrown .typeError
  | some s =>
    (axios.delete store ("http://localhost:3000/users/" ++ s)).andThen
      (fun res => res.data)

/-- The resolver of the mutation `editUser` (schema.js, lines 130-134): the whole
`args` object is the request body. -/
def mutation.editUser.resolve : Resolver := fun store _parentValue args =>
  match toStr (lookup "id" args) with
  | none => Promise.thrown .typeError
  | some s =>
    (axios.patch store ("http://localhost:3000/users/" ++ s) (.obj args)).andThen
      (fun res => res.data)

/-! ## The type graph -/

/-- The types a field or an argument is declared with. -/
inductive GraphQLType where
  | GraphQLString
  | GraphQLInt
  | named (name : String)
  | GraphQLList (ofType : GraphQLType)
  | GraphQLNonNull (ofType : GraphQLType)
  deriving DecidableEq, Repr

/-- Whether a type is wrapped in `GraphQLNonNull`. -/
def GraphQLType.isNonNull : GraphQLType → Bool
  | .GraphQLNonNull _ => true
  | _ => false

/-- One entry of a `fields` map: its name, its type, its declared arguments,
and its `resolve` function when it has one. -/
structure Field where
  name : String
  type : GraphQLType
  args : List (String × GraphQLType)
  resolve : Option Resolver

/-- The argument of `new GraphQLObjectType(...)`.  The source gives `fields` as
a function so that `Company` and `User` can name each other; here a type is
named by its `name`, and the field list is the value of that function. -/
structure GraphQLObjectType where
  name : String
  fields : List Field

open GraphQLType in
/-- The object `CompanyType` (schema.js, lines 15-34). -/
def CompanyType : GraphQLObjectType where
  name := "Company"
  fields := [
    ⟨"id", GraphQLString, [], none⟩,
    ⟨"name", GraphQLString, [], none⟩,
    ⟨"description", GraphQLString, [], none⟩,
    ⟨"users", GraphQLList (named "User"), [], some CompanyType.users.resolve⟩]

open GraphQLType in
/-- The object `UserType` (schema.js, lines 40-55). -/
def UserType : GraphQLObjectType where
  name := "User"
  fields := [
    ⟨"id", GraphQLString, [], none⟩,
    ⟨"firstName", GraphQLString, [], none⟩,
    ⟨"age", GraphQLInt, [], none⟩,
    ⟨"company", named "Company", [], some UserType.company.resolve⟩]

open GraphQLType in
/-- The object `RootQuery` (schema.js, lines 58-82). -/
def RootQuery : GraphQLObjectType where
  name := "RootQueryType"
  fields := [
    ⟨"user", named "User", [("id", GraphQLString)], some RootQuery.user.resolve⟩,
    ⟨"company", named "Company", [("id", GraphQLString)], some RootQuery.company.resolve⟩]

open GraphQLType in
/-- The object `mutation` (schema.js, lines 86-137). -/
def mutation : GraphQLObjectType where
  name := "Mutation"
  fields := [
    ⟨"addUser", named "User",
      [("firstName", GraphQLNonNull GraphQLString), ("age", GraphQLNonNull GraphQLInt),
        ("companyId", GraphQLString)],
      some mutation.addUser.resolve⟩,
    ⟨"deleteUser", named "User", [("id", GraphQLNonNull GraphQLString)],
      some mutation.deleteUser.resolve⟩,
    ⟨"editUser", named "User",
      [("id", GraphQLNonNull GraphQLString), ("firstName", GraphQLString),
        ("age", GraphQLInt), ("companyId", GraphQLString)],
      some mutation.editUser.resolve⟩]

/-- The argument of `new GraphQLSchema(...)`. -/
structure GraphQLSchema where
  query : GraphQLObjectType
  mutation : GraphQLObjectType

/-- The exported schema (schema.js, lines 140-143). -/
def schema : GraphQLSchema where
  query := RootQuery
  mutation := mutation

/-- Every object type of the schema. -/
def schema.types : List GraphQLObjectType :=
  [schema.query, schema.mutation, UserType, CompanyType]

/-- Every field of every object type of the schema. -/
def schema.fields : List Field :=
  schema.types.flatMap (fun t => t.fields)

/-- The object type of the schema with the given name. -/
def schema.typeNamed (name : String) : Option GraphQLObjectType :=
  schema.types.find? (fun t => t.name == name)

/-- The name of the object type under the list and non-null wrappers of a
type; none for the scalars. -/
def GraphQLType.objectName : GraphQLType → Option String
  | .named name => some name
  | .GraphQLList ofType => ofType.objectName
  | .GraphQLNonNull ofType => ofType.objectName
  | _ => none

/-! ## The execution engine -/

/-- A field selected in an operation, with the arguments the request supplies
for it and the sub-fields requested of its value.  A selection set is taken
after the engine has collected its fields (fragments spread, aliases resolved,
selections of one response key merged). -/
inductive Selection where
  | mk (field : String) (args : Args) (selectionSet : List Selection)

/-- The name of the selected field. -/
def Selection.field : Selection → String
  | .mk field _ _ => field

/-- The arguments supplied. -/
def Selection.args : Selection → Args
  | .mk _ args _ => args

/-- The sub-fields requested. -/
def Selection.selectionSet : Selection → List Selection
  | .mk _ _ selectionSet => selectionSet

/-- One step of the path of a field in a response: a field name, or the
position of an item in a list. -/
inductive PathSegment where
  | key (name : String)
  | index (i : Nat)
  deriving DecidableEq, Repr

/-- The errors of a response.  Query-shape errors, found before execution: an
unknown field, a required argument that is missing, an object-typed field
without sub-fields, a scalar field with sub-fields.  Execution errors, attached
to the path of a field: the failure of its resolver, or a value that cannot be
coerced into the declared type. -/
inductive GraphQLError where
  | unknownField (field : String)
  | missingArgument (field : String) (argument : String)
  | missingSelectionSet (field : String)
  | unexpectedSelectionSet (field : String)
  | fieldError (path : List PathSegment) (cause : JSError)
  | coercionError (path : List PathSegment)

/-- The outcome of executing an operation: the requests issued (field by field
in selection order; between the sibling fields of a query the order in time is
not fixed), the `data` map of the response (absent when nothing was executed),
and its `errors`. -/
structure ExecutionResult where
  requests : List Request
  data : Option (List (String × JSValue))
  errors : List GraphQLError

/-- The declared arguments of a field that are required (wrapped in
`GraphQLNonNull`) and that the request does not supply. -/
def missingArguments (f : Field) (supplied : Args) : List String :=
  (f.args.filter (fun a => a.2.isNonNull && !hasKey a.1 supplied)).map (fun a => a.1)

mutual
/-- Modelled from the spec: the validation of one selected field by the
query-execution engine (the `graphql` and `express-graphql` packages, which the
source requires and does not contain).  Sections 4.1 and 7: a request naming an
unknown field or missing a required argument is rejected with a structured
validation error; so is, in any engine that complies with GraphQL, a field of
an object type without sub-fields and a scalar field with sub-fields.  The
sub-fields are validated against the object type of the field. -/
def validateSelection (root : GraphQLObjectType) : Selection → List GraphQLError
  | .mk field args selectionSet =>
    match root.fields.find? (fun f => f.name == field) with
    | none => [GraphQLError.unknownField field]
    | some f =>
      (missingArguments f args).map (GraphQLError.missingArgument field) ++
      (match f.type.objectName.bind schema.typeNamed with
        | some t =>
          match selectionSet with
          | [] => [GraphQLError.missingSelectionSet field]
          | _ => validateSelectionSet t selectionSet
        | none =>
          match selectionSet with
          | [] => []
          | _ => [GraphQLError.unexpectedSelectionSet field])
/-- Modelled from the spec: the validation of the sub-fields of a field (not in
the source). -/
def validateSelectionSet (root : GraphQLObjectType) : List Selection → List GraphQLError
  | [] => []
  | sel :: rest => validateSelection root sel ++ validateSelectionSet root rest
end

/-- Modelled from the spec: the validation pass of the engine over the whole
operation (not in the source): the validation errors of all its root fields. -/
def validate (root : GraphQLObjectType) (sels : List Selection) : List GraphQLError :=
  sels.flatMap (validateSelection root)

/-- The serialisation of a scalar by the engine: the value put into the
response for a non-null value of a field of type `GraphQLString` or
`GraphQLInt`, or none when the value cannot be serialised.  The source leaves
it to the `graphql` package, and so it is a parameter of the execution. -/
abbrev Serializer := GraphQLType → JSValue → Option JSValue

/-- What completing the value of one field yields: the requests issued by the
resolvers below it, the value put into the response, and the errors met. -/
structure Completion where
  requests : List Request
  value : JSValue
  errors : List GraphQLError

/-- The completion of the items of a list, from the given position on. -/
def completeList (item : Nat → JSValue → Completion) : Nat → List JSValue → Completion
  | _, [] => ⟨[], .arr [], []⟩
  | i, x :: rest =>
    let c := item i x
    let tail := completeList item (i + 1) rest
    ⟨c.requests ++ tail.requests,
      match tail.value with
      | .arr values => .arr (c.value :: values)
      | _ => .arr [c.value],
      c.errors ++ tail.errors⟩

/-- Modelled from the spec: the coercion of a resolved value into the declared
type of its field (section 4.2), through the list and non-null wrappers down to
`named`, which completes a value of an object or scalar type.  `null` and
`undefined` become `null`; a list type wants an array and completes each item
at its index, anything else is a coercion error with the value `null`.  No
field of this schema has a non-null type; the wrapper is completed as the type
it wraps. -/
def completeValue (named : GraphQLType → List PathSegment → JSValue → Completion) :
    GraphQLType → List PathSegment → JSValue → Completion
  | .GraphQLNonNull ofType, path, v => completeValue named ofType path v
  | .GraphQLList ofType, path, v =>
    match v with
    | .undefined => ⟨[], .null, []⟩
    | .null => ⟨[], .null, []⟩
    | .arr items =>
      completeList (fun i x => completeValue named ofType (path ++ [.index i]) x) 0 items
    | _ => ⟨[], .null, [GraphQLError.coercionError path]⟩
  | t, path, v =>
    match v with
    | .undefined => ⟨[], .null, []⟩
    | .null => ⟨[], .null, []⟩
    | _ => named t path v

/-- Modelled from the spec: the completion of a non-null value of a named type
(section 4.2).  A scalar is serialised; a value of an object type becomes the
map of the requested sub-fields, computed by `object`. -/
def completeNamed (serialize : Serializer)
    (object : GraphQLObjectType → List PathSegment → JSValue → Completion) :
    GraphQLType → List PathSegment → JSValue → Completion :=
  fun t path v =>
    match t.objectName.bind schema.typeNamed with
    | some objectType => object objectType path v
    | none =>
      match serialize t v with
      | some w => ⟨[], w, []⟩
      | none => ⟨[], .null, [GraphQLError.coercionError path]⟩

/-- The resolver of a field that has none (section 4.2: direct property
access): the property of the parent named like the field, `undefined` when the
parent is not an object. -/
def defaultFieldResolver (source : JSValue) (fieldName : String) : JSValue :=
  match source with
  | .obj fields => lookup fieldName fields
  | _ => .undefined

mutual
/-- Modelled from the spec: the execution of one selected field by the engine
(not in the source).  Sections 4.2 and 7: the resolver of the field runs once,
on the parent value and the arguments supplied; a resolver failure becomes a
field-level error attached to the path of the field, whose value is then
`null`, and nothing is retried; a resolved value is coerced into the declared
type, its sub-fields being executed on it. -/
def executeField (serialize : Serializer) (store : Store) (parentType : GraphQLObjectType)
    (source : JSValue) (path : List PathSegment) : Selection → Option Completion
  | .mk field args selectionSet =>
    match parentType.fields.find? (fun f => f.name == field) with
    | none => none
    | some f =>
      let complete := completeValue (completeNamed serialize (fun objectType loc v =>
        let out := executeFields serialize store objectType v loc [] selectionSet
        ⟨out.1, .obj out.2.1, out.2.2⟩)) f.type (path ++ [.key field])
      match f.resolve with
      | none => some (complete (defaultFieldResolver source field))
      | some r =>
        let p := r store source args
        match p.settled with
        | .error e => some ⟨p.requests, .null, [GraphQLError.fieldError (path ++ [.key field]) e]⟩
        | .ok v =>
          let c := complete v
          some ⟨p.requests ++ c.requests, c.value, c.errors⟩
/-- Modelled from the spec: the execution of a selection set on a parent value
(not in the source): its fields one after the other, each on its own, so that
the failure of one leaves its siblings as they are.  A field name met a second
time is not executed again, and a field the type does not have is left out. -/
def executeFields (serialize : Serializer) (store : Store) (parentType : GraphQLObjectType)
    (source : JSValue) (path : List PathSegment) (seen : List String) :
    List Selection → List Request × List (String × JSValue) × List GraphQLError
  | [] => ([], [], [])
  | sel :: rest =>
    if seen.contains sel.field then
      executeFields serialize store parentType source path seen rest
    else
      match executeField serialize store parentType source path sel with
      | none => executeFields serialize store parentType source path seen rest
      | some c =>
        let tail := executeFields serialize store parentType source path (sel.field :: seen) rest
        (c.requests ++ tail.1, (sel.field, c.value) :: tail.2.1, c.errors ++ tail.2.2)
end

/-- The coercion of the value `v` a resolver returned for a field of type `t`
at `path`, with the sub-fields `selectionSet` requested of it. -/
def completeField (serialize : Serializer) (store : Store) (t : GraphQLType)
    (path : List PathSegment) (selectionSet : List Selection) (v : JSValue) : Completion :=
  completeValue (completeNamed serialize (fun objectType loc w =>
    let out := executeFields serialize store objectType w loc [] selectionSet
    ⟨out.1, .obj out.2.1, out.2.2⟩)) t path v

/-- Modelled from the spec: one operation through the engine (not in the
source).  Sections 4.1 and 7: query-shape errors are reported before any
resolver runs; otherwise the root fields are executed.  The root value is
`undefined`, as the server sets none. -/
def execute (serialize : Serializer) (store : Store) (root : GraphQLObjectType)
    (sels : List Selection) : ExecutionResult :=
  match validate root sels with
  | [] =>
    let out := executeFields serialize store root JSValue.undefined [] [] sels
    ⟨out.1, some out.2.1, out.2.2⟩
  | e :: es => ⟨[], none, e :: es⟩

/-- A serialisation that keeps every value as it is; the examples meet no
other than `null` leaves and strings. -/
def keepScalar : Serializer :=
  fun _ v => some v

/-- A store that answers every request with status 200 and the given body. -/
def constStore (body : JSValue) : Store :=
  fun _ => .ok ⟨200, body⟩

/-- A store that answers the requests selected by `failing` with status 404
and every other request with status 200 and the given body. -/
def storeFailingAt (failing : Request → Bool) (body : JSValue) : Store :=
  fun req => if failing req then .error (.status 404) else .ok ⟨200, body⟩


/-- The resolver call `p` issued the one request `req`, and settled as the
store answered it: with the response body on success, with the rejection of
`axios` on failure. -/
def PassesThrough (p : Promise JSValue) (store : Store) (req : Request) : Prop :=
  p.requests = [req] ∧
  (∀ res, store req = .ok res → p.settled = .ok res.data) ∧
  (∀ e, store req = .error e → p.settled = .error (.rejected e))

/-- The resolver `r` does what `build` says, on every store, parent value and
argument set: when `build` gives a request, `r` issues exactly that request and
settles as the store answers it; when `build` gives none, `r` throws a
`TypeError` and issues no request. -/
def Builds (r : Resolver) (build : JSValue → Args → Option Request) : Prop :=
  ∀ (store : Store) (parentValue : JSValue) (args : Args),
    match build parentValue args with
    | some req => PassesThrough (r store parentValue args) store req
    | none =>
      (r store parentValue args).requests = [] ∧
      (r store parentValue args).settled = .error .typeError

/-- The values that are not objects or arrays. -/
def JSValue.isPrimitive : JSValue → Bool
  | .arr _ => false
  | .obj _ => false
  | _ => true

/-- The arguments declared with `GraphQLNonNull`, as pairs of field and
argument name, over every field of the schema. -/
def schema.requiredArguments : List (String × String) :=
  schema.fields.flatMap (fun f =>
    (f.args.filter (fun a => a.2.isNonNull)).map (fun a => (f.name, a.1)))

/-- The arguments declared without `GraphQLNonNull`, as pairs of field and
argument name, over every field of the schema. -/
def schema.optionalArguments : List (String × String) :=
  schema.fields.flatMap (fun f =>
    (f.args.filter (fun a => !a.2.isNonNull)).map (fun a => (f.name, a.1)))

/-! ## Basic facts -/

theorem lookup_of_hasKey_false (k : String) (fields : List (String × JSValue))
    (h : hasKey k fields = false) : lookup k fields = .undefined := by
  induction fields with
  | nil => rfl
  | cons kv rest ih =>
    obtain ⟨k', v⟩ := kv
    by_cases hk : k' = k
    · simp [hasKey, hk] at h
    · simp [hasKey, hk] at h
      simp [lookup, hk, ih h]

theorem passesThrough_request (store : Store) (req : Request) :
    PassesThrough ((axios.request store req).andThen (fun res => res.data)) store req := by
  refine ⟨rfl, ?_, ?_⟩
  · intro res h
    simp [axios.request, Promise.andThen, h]
  · intro e h
    simp [axios.request, Promise.andThen, h]

/-! ## The requests of the mutations -/

/-- C2: for every argument set, `addUser` issues the one request `POST /users`
whose body is the object with exactly the keys `firstName` and `age`, holding
the values of those arguments; hence two calls whose arguments agree on every
key other than `companyId` issue identical requests. -/
theorem addUser_posts_firstName_and_age (store : Store) (parentValue : JSValue) (args : Args) :
    (mutation.addUser.resolve store parentValue args).requests =
        [⟨.POST, "http://localhost:3000/users",
          some (.obj [("firstName", lookup "firstName" args), ("age", lookup "age" args)])⟩] ∧
    ∀ (store' : Store) (parentValue' : JSValue) (args' : Args),
      (∀ k, k ≠ "companyId" → lookup k args' = lookup k args) →
      (mutation.addUser.resolve store' parentValue' args').requests =
        (mutation.addUser.resolve store parentValue args).requests := by
  refine ⟨rfl, ?_⟩
  intro store' parentValue' args' h
  have h1 : lookup "firstName" args' = lookup "firstName" args := h _ (by decide)
  have h2 : lookup "age" args' = lookup "age" args := h _ (by decide)
  simp [mutation.addUser.resolve, axios.post, axios.request, Promise.andThen, h1, h2]

/-- C2, at a concrete input: a call with `companyId` and a call without it
issue the same request. -/
theorem addUser_posts_firstName_and_age_witness :
    (mutation.addUser.resolve (constStore .null) .undefined
        [("firstName", .str "Ann"), ("age", .num "30"), ("companyId", .str "2")]).requests =
      (mutation.addUser.resolve (constStore .null) .undefined
        [("firstName", .str "Ann"), ("age", .num "30")]).requests :=
  (addUser_posts_firstName_and_age (constStore .null) .undefined
      [("firstName", .str "Ann"), ("age", .num "30")]).2
    (constStore .null) .undefined
    [("firstName", .str "Ann"), ("age", .num "30"), ("companyId", .str "2")]
    (by
      intro k hk
      have hk' : ¬ ("companyId" = k) := fun h => hk h.symm
      simp [lookup, hk'])

/-- C3: for every argument object whose `id` converts to the string `s` (every
string `id` does, to itself), `editUser` issues the one request
`PATCH /users/s` whose body is the argument object itself, so that the body has
the keys of `args`, `id` included, with the same values and no other key; called
with only `id` and `firstName`, the body has neither `age` nor `companyId`. -/
theorem editUser_patches_whole_args (store : Store) (parentValue : JSValue) (args : Args)
    (s : String) (hid : toStr (lookup "id" args) = some s) :
    (mutation.editUser.resolve store parentValue args).requests =
        [⟨.PATCH, "http://localhost:3000/users/" ++ s, some (.obj args)⟩] ∧
    ∀ (id firstName : JSValue), args = [("id", id), ("firstName", firstName)] →
      ∃ body, (mutation.editUser.resolve store parentValue args).requests =
          [⟨.PATCH, "http://localhost:3000/users/" ++ s, some (.obj body)⟩] ∧
        body = [("id", id), ("firstName", firstName)] ∧
        hasKey "age" body = false ∧ hasKey "companyId" body = false := by
  have hreq : (mutation.editUser.resolve store parentValue args).requests =
      [⟨.PATCH, "http://localhost:3000/users/" ++ s, some (.obj args)⟩] := by
    simp [mutation.editUser.resolve, hid, axios.patch, axios.request, Promise.andThen]
  refine ⟨hreq, ?_⟩
  intro id firstName hargs
  refine ⟨args, hreq, hargs, ?_, ?_⟩ <;> subst hargs <;> rfl

/-- C3, at a concrete input: `editUser(id: "7", firstName: "Ann")`. -/
theorem editUser_patches_whole_args_witness :
    (mutation.editUser.resolve (constStore .null) .undefined
        [("id", .str "7"), ("firstName", .str "Ann")]).requests =
      [⟨.PATCH, "http://localhost:3000/users/7",
        some (.obj [("id", .str "7"), ("firstName", .str "Ann")])⟩] :=
  (editUser_patches_whole_args (constStore .null) .undefined
    [("id", .str "7"), ("firstName", .str "Ann")] "7" rfl).1

/-- C4, at the failing inputs: against a store that answers the `DELETE` with
status 200 and the body `{}`, `deleteUser` fulfils with `{}`; against one that
answers with status 204 and no body, which `axios` hands over as the empty
string, it fulfils with the empty string.  Neither is `null`. -/
theorem deleteUser_result_not_always_null :
    (mutation.deleteUser.resolve (constStore (.obj [])) .undefined [("id", .str "7")]).requests =
        [⟨.DELETE, "http://localhost:3000/users/7", none⟩] ∧
    (mutation.deleteUser.resolve (constStore (.obj [])) .undefined [("id", .str "7")]).settled =
        .ok (.obj []) ∧
    (mutation.deleteUser.resolve (constStore (.obj [])) .undefined [("id", .str "7")]).settled ≠
        .ok .null ∧
    (mutation.deleteUser.resolve (fun _ => .ok ⟨204, .str ""⟩) .undefined
        [("id", .str "7")]).settled = .ok (.str "") ∧
    (mutation.deleteUser.resolve (fun _ => .ok ⟨204, .str ""⟩) .undefined
        [("id", .str "7")]).settled ≠ .ok .null := by
  refine ⟨rfl, rfl, ?_, rfl, ?_⟩
  · intro h
    have h' : (Except.ok (JSValue.obj []) : Except JSError JSValue) = .ok .null := h
    cases h'
  · intro h
    have h' : (Except.ok (JSValue.str "") : Except JSError JSValue) = .ok .null := h
    cases h'

/-! ## The requests of the resolvers -/

theorem getProp_eq_none_iff (v : JSValue) (k : String) :
    getProp v k = none ↔ v = .null ∨ v = .undefined := by
  cases v <;> simp [getProp]

theorem toStr_of_isPrimitive (v : JSValue) (h : v.isPrimitive = true) : ∃ s, toStr v = some s := by
  cases v <;> simp [JSValue.isPrimitive] at h <;> simp [toStr]

theorem builds_of_text (r : Resolver) (text : JSValue → Args → Option String)
    (request : String → JSValue → Args → Request)
    (h : ∀ store parentValue args, r store parentValue args =
      match text parentValue args with
      | none => Promise.thrown .typeError
      | some s =>
        (axios.request store (request s parentValue args)).andThen (fun res => res.data)) :
    Builds r (fun parentValue args =>
      (text parentValue args).map (fun s => request s parentValue args)) := by
  intro store parentValue args
  have hr := h store parentValue args
  cases ht : text parentValue args with
  | none =>
    rw [ht] at hr
    simp only [ht, Option.map]
    rw [hr]
    exact ⟨rfl, rfl⟩
  | some s =>
    rw [ht] at hr
    simp only [ht, Option.map]
    rw [hr]
    exact passesThrough_request store _

/-- C10, refuted as stated: for a user whose `companyId` is the object
`{"toString": 1}`, `User.company` throws while the URL is built and issues no
request. -/
theorem user_company_may_issue_no_request :
    (UserType.company.resolve (constStore .null)
        (.obj [("id", .str "1"), ("companyId", .obj [("toString", .num "1")])]) []).requests = [] ∧
    (UserType.company.resolve (constStore .null)
        (.obj [("id", .str "1"), ("companyId", .obj [("toString", .num "1")])]) []).settled =
      .error .typeError :=
  ⟨rfl, rfl⟩

/-- C10, amended: `User.company` never returns without a request.  Whenever the
parent has a `companyId` property to read (every value but `null` and
`undefined`) and its value converts to the string `s`, it issues
`GET /companies/s`; for a user object without the key that is
`/companies/undefined`, for one holding `null` it is `/companies/null`; every
string, number and boolean converts.  Only when the conversion throws (an
object with an own `toString` key, or an array holding one) does the resolver
issue no request, and then it fails with the `TypeError`. -/
theorem user_company_always_requests (store : Store) (args : Args) :
    (∀ (parentValue v : JSValue) (s : String),
      getProp parentValue "companyId" = some v → toStr v = some s →
      (UserType.company.resolve store parentValue args).requests =
        [⟨.GET, "http://localhost:3000/companies/" ++ s, none⟩]) ∧
    (∀ fields : List (String × JSValue), hasKey "companyId" fields = false →
      (UserType.company.resolve store (.obj fields) args).requests =
        [⟨.GET, "http://localhost:3000/companies/undefined", none⟩]) ∧
    (∀ fields : List (String × JSValue), lookup "companyId" fields = .null →
      (UserType.company.resolve store (.obj fields) args).requests =
        [⟨.GET, "http://localhost:3000/companies/null", none⟩]) ∧
    (∀ v : JSValue, v.isPrimitive = true → ∃ s, toStr v = some s) ∧
    (∀ (parentValue v : JSValue),
      getProp parentValue "companyId" = some v → toStr v = none →
      (UserType.company.resolve store parentValue args).requests = [] ∧
      (UserType.company.resolve store parentValue args).settled = .error .typeError) ∧
    (∀ (parentValue : JSValue),
      (UserType.company.resolve store parentValue args).requests = [] →
      (UserType.company.resolve store parentValue args).settled = .error .typeError) := by
  have main : ∀ (parentValue v : JSValue) (s : String),
      getProp parentValue "companyId" = some v → toStr v = some s →
      (UserType.company.resolve store parentValue args).requests =
        [⟨.GET, "http://localhost:3000/companies/" ++ s, none⟩] := by
    intro parentValue v s hv hs
    simp [UserType.company.resolve, hv, hs, axios.get, axios.request, Promise.andThen]
  refine ⟨main, ?_, ?_, toStr_of_isPrimitive, ?_, ?_⟩
  · intro fields h
    exact main (.obj fields) .undefined "undefined"
      (by simp [getProp, lookup_of_hasKey_false _ _ h]) rfl
  · intro fields h
    exact main (.obj fields) .null "null" (by simp [getProp, h]) rfl
  · intro parentValue v hv hs
    simp [UserType.company.resolve, hv, hs, Promise.thrown]
  · intro parentValue hreq
    cases hv : getProp parentValue "companyId" with
    | none => simp [UserType.company.resolve, hv, Promise.thrown]
    | some v =>
      cases hs : toStr v with
      | none => simp [UserType.company.resolve, hv, hs, Promise.thrown]
      | some s => rw [main parentValue v s hv hs] at hreq; cases hreq

/-- C10, amended, at concrete inputs: a user without `companyId`, and one whose
`companyId` is `null`. -/
theorem user_company_always_requests_witness :
    (UserType.company.resolve (constStore .null) (.obj [("id", .str "1")]) []).requests =
        [⟨.GET, "http://localhost:3000/companies/undefined", none⟩] ∧
    (UserType.company.resolve (constStore .null)
        (.obj [("id", .str "1"), ("companyId", .null)]) []).requests =
        [⟨.GET, "http://localhost:3000/companies/null", none⟩] :=
  ⟨(user_company_always_requests (constStore .null) []).2.1 [("id", .str "1")] rfl,
   (user_company_always_requests (constStore .null) []).2.2.1
     [("id", .str "1"), ("companyId", .null)] rfl⟩

/-! ## The edge between `Company` and `User` -/

/-- C6: let the store answer `GET /companies/c` with a company whose `id` is
`c`, and `GET /companies/c/users` with a list of users whose `companyId` is
`c`.  Then `company(c)` returns that company, its `users` field resolves to
that list, and the `company` field of every user of the list resolves to
that same company, whose `id` is `c`. -/
theorem company_users_company_round_trip (store : Store) (c : String)
    (parentValue : JSValue) (args args₁ args₂ : Args) (company : Response)
    (status : Nat) (users : List JSValue)
    (hargs : lookup "id" args = .str c)
    (hcompany : store ⟨.GET, "http://localhost:3000/companies/" ++ c, none⟩ = .ok company)
    (hid : getProp company.data "id" = some (.str c))
    (husers : store ⟨.GET, "http://localhost:3000/companies/" ++ c ++ "/users", none⟩ =
      .ok ⟨status, .arr users⟩)
    (hfk : ∀ u ∈ users, getProp u "companyId" = some (.str c)) :
    (RootQuery.company.resolve store parentValue args).settled = .ok company.data ∧
    (CompanyType.users.resolve store company.data args₁).settled = .ok (.arr users) ∧
    ∀ u ∈ users, (UserType.company.resolve store u args₂).settled = .ok company.data ∧
      getProp company.data "id" = some (.str c) := by
  refine ⟨?_, ?_, ?_⟩
  · simp [RootQuery.company.resolve, hargs, toStr, axios.get, axios.request, Promise.andThen,
      hcompany]
  · simp [CompanyType.users.resolve, hid, toStr, axios.get, axios.request, Promise.andThen,
      husers]
  · intro u hu
    refine ⟨?_, hid⟩
    simp [UserType.company.resolve, hfk u hu, toStr, axios.get, axios.request, Promise.andThen,
      hcompany]

/-- C6, at a concrete input: a store that answers `/companies/2/users` with two
users of company `2` and every other request with the company `2`; the
`company` field of the second user. -/
theorem company_users_company_round_trip_witness :
    (UserType.company.resolve
        (fun req => if req.url = "http://localhost:3000/companies/2/users" then
            .ok ⟨200, .arr [.obj [("id", .str "23"), ("companyId", .str "2")],
              .obj [("id", .str "40"), ("companyId", .str "2")]]⟩
          else .ok ⟨200, .obj [("id", .str "2"), ("name", .str "Acme")]⟩)
        (.obj [("id", .str "40"), ("companyId", .str "2")]) []).settled =
      .ok (.obj [("id", .str "2"), ("name", .str "Acme")]) ∧
    getProp (.obj [("id", .str "2"), ("name", .str "Acme")]) "id" = some (.str "2") :=
  (company_users_company_round_trip
    (fun req => if req.url = "http://localhost:3000/companies/2/users" then
        .ok ⟨200, .arr [.obj [("id", .str "23"), ("companyId", .str "2")],
          .obj [("id", .str "40"), ("companyId", .str "2")]]⟩
      else .ok ⟨200, .obj [("id", .str "2"), ("name", .str "Acme")]⟩)
    "2" .undefined [("id", .str "2")] [] []
    ⟨200, .obj [("id", .str "2"), ("name", .str "Acme")]⟩ 200
    [.obj [("id", .str "23"), ("companyId", .str "2")],
      .obj [("id", .str "40"), ("companyId", .str "2")]]
    rfl rfl rfl rfl
    (by
      intro u hu
      simp only [List.mem_cons, List.mem_nil_iff, or_false] at hu
      rcases hu with h | h <;> subst h <;> rfl)).2.2
    (.obj [("id", .str "40"), ("companyId", .str "2")])
    (List.mem_cons_of_mem _ (List.mem_singleton.mpr rfl))


/-! ## One request per resolver, passed through -/

/-- The resolver of a field of the schema is one of the seven of the source. -/
theorem resolver_cases (f : Field) (r : Resolver) (hf : f ∈ schema.fields)
    (hr : f.resolve = some r) :
    r = RootQuery.user.resolve ∨ r = RootQuery.company.resolve ∨
    r = mutation.addUser.resolve ∨ r = mutation.deleteUser.resolve ∨
    r = mutation.editUser.resolve ∨ r = UserType.company.resolve ∨
    r = CompanyType.users.resolve := by
  simp only [schema.fields, schema.types, schema, RootQuery, mutation, UserType, CompanyType,
    List.flatMap_cons, List.flatMap_nil, List.append_nil, List.cons_append, List.nil_append,
    List.mem_cons, List.mem_nil_iff, or_false] at hf
  rcases hf with h | h | h | h | h | h | h | h | h | h | h | h | h <;> subst h <;>
    simp at hr <;> simp [← hr]

/-- C1, refuted as stated: `Company.users` called with the parent `null`, and
called with a company whose `id` is the object `{"toString": 1}`, throws while
the URL is built and issues no request at all. -/
theorem resolver_may_issue_no_request :
    (CompanyType.users.resolve (constStore .null) .null []).requests = [] ∧
    (CompanyType.users.resolve (constStore .null) .null []).settled = .error .typeError ∧
    (CompanyType.users.resolve (constStore .null)
        (.obj [("id", .obj [("toString", .num "1")]), ("name", .str "Acme")]) []).requests = [] :=
  ⟨rfl, rfl, rfl⟩

/-- C1, amended: the schema has seven resolvers, and each of them, on every
parent value, argument set and store, issues exactly the one request written
out below and settles as the store answers it (with the response body,
unchanged, on success), unless building its URL throws a `TypeError`, in which
case it issues no request.  The URL of `user`, `company`, `deleteUser` and
`editUser` is built from `args.id` alone and fails only when that value has no
string conversion; `addUser` always issues its request; `User.company` and
`Company.users` read `companyId` and `id` off the parent and fail only when the
parent is `null` or `undefined` or that property has no string conversion.
Strings, numbers, booleans, `null` and `undefined` all convert.  For a string
`id` for which `GET /users/id` succeeds, `user(id)` issues that one request and
returns the body of the response. -/
theorem resolvers_issue_one_request_and_pass_through :
    (schema.fields.filter (fun f => f.resolve.isSome)).map (fun f => f.name) =
        ["user", "company", "addUser", "deleteUser", "editUser", "company", "users"] ∧
    (∀ (f : Field) (r : Resolver), f ∈ schema.fields → f.resolve = some r →
      r = RootQuery.user.resolve ∨ r = RootQuery.company.resolve ∨
      r = mutation.addUser.resolve ∨ r = mutation.deleteUser.resolve ∨
      r = mutation.editUser.resolve ∨ r = UserType.company.resolve ∨
      r = CompanyType.users.resolve) ∧
    Builds RootQuery.user.resolve (fun _ args =>
      (toStr (lookup "id" args)).map (fun s =>
        ⟨.GET, "http://localhost:3000/users/" ++ s, none⟩)) ∧
    Builds RootQuery.company.resolve (fun _ args =>
      (toStr (lookup "id" args)).map (fun s =>
        ⟨.GET, "http://localhost:3000/companies/" ++ s, none⟩)) ∧
    Builds mutation.addUser.resolve (fun _ args =>
      some ⟨.POST, "http://localhost:3000/users",
        some (.obj [("firstName", lookup "firstName" args), ("age", lookup "age" args)])⟩) ∧
    Builds mutation.deleteUser.resolve (fun _ args =>
      (toStr (lookup "id" args)).map (fun s =>
        ⟨.DELETE, "http://localhost:3000/users/" ++ s, none⟩)) ∧
    Builds mutation.editUser.resolve (fun _ args =>
      (toStr (lookup "id" args)).map (fun s =>
        ⟨.PATCH, "http://localhost:3000/users/" ++ s, some (.obj args)⟩)) ∧
    Builds UserType.company.resolve (fun parentValue _ =>
      ((getProp parentValue "companyId").bind toStr).map (fun s =>
        ⟨.GET, "http://localhost:3000/companies/" ++ s, none⟩)) ∧
    Builds CompanyType.users.resolve (fun parentValue _ =>
      ((getProp parentValue "id").bind toStr).map (fun s =>
        ⟨.GET, "http://localhost:3000/companies/" ++ s ++ "/users", none⟩)) ∧
    (∀ (v : JSValue) (k : String), getProp v k = none ↔ v = .null ∨ v = .undefined) ∧
    (∀ v : JSValue, v.isPrimitive = true → ∃ s, toStr v = some s) ∧
    (∀ (store : Store) (parentValue : JSValue) (args : Args) (id : String) (res : Response),
      lookup "id" args = .str id →
      store ⟨.GET, "http://localhost:3000/users/" ++ id, none⟩ = .ok res →
      (RootQuery.user.resolve store parentValue args).requests =
          [⟨.GET, "http://localhost:3000/users/" ++ id, none⟩] ∧
        (RootQuery.user.resolve store parentValue args).settled = .ok res.data) := by
  refine ⟨rfl, resolver_cases, ?_, ?_, ?_, ?_, ?_, ?_, ?_, getProp_eq_none_iff,
    toStr_of_isPrimitive, ?_⟩
  · exact builds_of_text _ (fun _ args => toStr (lookup "id" args))
      (fun s _ _ => ⟨.GET, "http://localhost:3000/users/" ++ s, none⟩) (fun _ _ _ => rfl)
  · exact builds_of_text _ (fun _ args => toStr (lookup "id" args))
      (fun s _ _ => ⟨.GET, "http://localhost:3000/companies/" ++ s, none⟩) (fun _ _ _ => rfl)
  · intro store parentValue args
    exact passesThrough_request store _
  · exact builds_of_text _ (fun _ args => toStr (lookup "id" args))
      (fun s _ _ => ⟨.DELETE, "http://localhost:3000/users/" ++ s, none⟩) (fun _ _ _ => rfl)
  · exact builds_of_text _ (fun _ args => toStr (lookup "id" args))
      (fun s _ args => ⟨.PATCH, "http://localhost:3000/users/" ++ s, some (.obj args)⟩)
      (fun _ _ _ => rfl)
  · refine builds_of_text _ (fun parentValue _ => (getProp parentValue "companyId").bind toStr)
      (fun s _ _ => ⟨.GET, "http://localhost:3000/companies/" ++ s, none⟩) ?_
    intro store parentValue args
    dsimp only [UserType.company.resolve]
    cases getProp parentValue "companyId" <;> rfl
  · refine builds_of_text _ (fun parentValue _ => (getProp parentValue "id").bind toStr)
      (fun s _ _ => ⟨.GET, "http://localhost:3000/companies/" ++ s ++ "/users", none⟩) ?_
    intro store parentValue args
    dsimp only [CompanyType.users.resolve]
    cases getProp parentValue "id" <;> rfl
  · intro store parentValue args id res hid hok
    simp [RootQuery.user.resolve, hid, toStr, axios.get, axios.request, Promise.andThen, hok]

/-- C1, amended, at a concrete input: `user(id: "7")` against a store holding
the record `{"id": "7", "firstName": "Ann"}`. -/
theorem resolvers_issue_one_request_and_pass_through_witness :
    (RootQuery.user.resolve (constStore (.obj [("id", .str "7"), ("firstName", .str "Ann")]))
        .undefined [("id", .str "7")]).requests =
      [⟨.GET, "http://localhost:3000/users/7", none⟩] ∧
    (RootQuery.user.resolve (constStore (.obj [("id", .str "7"), ("firstName", .str "Ann")]))
        .undefined [("id", .str "7")]).settled =
      .ok (.obj [("id", .str "7"), ("firstName", .str "Ann")]) :=
  resolvers_issue_one_request_and_pass_through.2.2.2.2.2.2.2.2.2.2.2
    (constStore (.obj [("id", .str "7"), ("firstName", .str "Ann")])) .undefined
    [("id", .str "7")] "7" ⟨200, .obj [("id", .str "7"), ("firstName", .str "Ann")]⟩
    rfl rfl

/-! ## Failures -/

/-- C7, refuted as stated: the store has no user `9` and answers the company
request with the body `"Acme"`; in the query for `user(id: "9") { id }` and
`company(id: "2") { id name }` the `company` field, whose request succeeded
with that body, does not hold the body but its coercion into `Company`, the
object of the two requested fields, both `null`. -/
theorem sibling_result_is_coerced :
    execute keepScalar
        (storeFailingAt (fun req => req.url = "http://localhost:3000/users/9") (.str "Acme"))
        schema.query
        [⟨"user", [("id", .str "9")], [⟨"id", [], []⟩]⟩,
          ⟨"company", [("id", .str "2")], [⟨"id", [], []⟩, ⟨"name", [], []⟩]⟩] =
      ⟨[⟨.GET, "http://localhost:3000/users/9", none⟩,
          ⟨.GET, "http://localhost:3000/companies/2", none⟩],
        some [("user", .null), ("company", .obj [("id", .null), ("name", .null)])],
        [.fieldError [.key "user"] (.rejected (.status 404))]⟩ ∧
    JSValue.obj [("id", .null), ("name", .null)] ≠ .str "Acme" := by
  refine ⟨rfl, ?_⟩
  intro h
  cases h

/-- C7, amended: in a valid query for `user(id1)` and `company(id2)`, in either
order and whatever the serialisation of scalars, when the request of one field
fails and the request of the other succeeds with the body `b`, the failing
field is `null` with one error at its path and its request was issued once;
the resolver of the other field returned `b`, and that field holds the coercion
of `b` into its declared type over the requested sub-fields, with the requests
and errors of that coercion and no other. -/
theorem sibling_failure_is_isolated (serialize : Serializer) (store : Store)
    (id1 id2 : String) (e : HttpError) (res : Response) (S1 S2 : List Selection)
    (huser : validateSelection schema.query ⟨"user", [("id", .str id1)], S1⟩ = [])
    (hcompany : validateSelection schema.query ⟨"company", [("id", .str id2)], S2⟩ = []) :
    (store ⟨.GET, "http://localhost:3000/users/" ++ id1, none⟩ = .error e →
      store ⟨.GET, "http://localhost:3000/companies/" ++ id2, none⟩ = .ok res →
      execute serialize store schema.query
          [⟨"user", [("id", .str id1)], S1⟩, ⟨"company", [("id", .str id2)], S2⟩] =
        ⟨⟨.GET, "http://localhost:3000/users/" ++ id1, none⟩ ::
            ⟨.GET, "http://localhost:3000/companies/" ++ id2, none⟩ ::
            (completeField serialize store (.named "Company") [.key "company"] S2
              res.data).requests,
          some [("user", .null),
            ("company", (completeField serialize store (.named "Company") [.key "company"] S2
              res.data).value)],
          .fieldError [.key "user"] (.rejected e) ::
            (completeField serialize store (.named "Company") [.key "company"] S2
              res.data).errors⟩ ∧
      execute serialize store schema.query
          [⟨"company", [("id", .str id2)], S2⟩, ⟨"user", [("id", .str id1)], S1⟩] =
        ⟨⟨.GET, "http://localhost:3000/companies/" ++ id2, none⟩ ::
            ((completeField serialize store (.named "Company") [.key "company"] S2
              res.data).requests ++ [⟨.GET, "http://localhost:3000/users/" ++ id1, none⟩]),
          some [("company", (completeField serialize store (.named "Company") [.key "company"] S2
              res.data).value), ("user", .null)],
          (completeField serialize store (.named "Company") [.key "company"] S2
              res.data).errors ++ [.fieldError [.key "user"] (.rejected e)]⟩ ∧
      (RootQuery.company.resolve store .undefined [("id", .str id2)]).settled = .ok res.data) ∧
    (store ⟨.GET, "http://localhost:3000/companies/" ++ id2, none⟩ = .error e →
      store ⟨.GET, "http://localhost:3000/users/" ++ id1, none⟩ = .ok res →
      execute serialize store schema.query
          [⟨"user", [("id", .str id1)], S1⟩, ⟨"company", [("id", .str id2)], S2⟩] =
        ⟨⟨.GET, "http://localhost:3000/users/" ++ id1, none⟩ ::
            ((completeField serialize store (.named "User") [.key "user"] S1
              res.data).requests ++ [⟨.GET, "http://localhost:3000/companies/" ++ id2, none⟩]),
          some [("user", (completeField serialize store (.named "User") [.key "user"] S1
              res.data).value), ("company", .null)],
          (completeField serialize store (.named "User") [.key "user"] S1
              res.data).errors ++ [.fieldError [.key "company"] (.rejected e)]⟩ ∧
      execute serialize store schema.query
          [⟨"company", [("id", .str id2)], S2⟩, ⟨"user", [("id", .str id1)], S1⟩] =
        ⟨⟨.GET, "http://localhost:3000/companies/" ++ id2, none⟩ ::
            ⟨.GET, "http://localhost:3000/users/" ++ id1, none⟩ ::
            (completeField serialize store (.named "User") [.key "user"] S1
              res.data).requests,
          some [("company", .null),
            ("user", (completeField serialize store (.named "User") [.key "user"] S1
              res.data).value)],
          .fieldError [.key "company"] (.rejected e) ::
            (completeField serialize store (.named "User") [.key "user"] S1
              res.data).errors⟩ ∧
      (RootQuery.user.resolve store .undefined [("id", .str id1)]).settled = .ok res.data) := by
  have hv1 : validate schema.query
      [⟨"user", [("id", .str id1)], S1⟩, ⟨"company", [("id", .str id2)], S2⟩] = [] := by
    simp [validate, huser, hcompany]
  have hv2 : validate schema.query
      [⟨"company", [("id", .str id2)], S2⟩, ⟨"user", [("id", .str id1)], S1⟩] = [] := by
    simp [validate, huser, hcompany]
  refine ⟨?_, ?_⟩
  · intro hu hc
    refine ⟨?_, ?_, ?_⟩
    · unfold execute
      rw [hv1]
      simp [executeFields, executeField, completeField, Selection.field, schema,
        RootQuery, RootQuery.user.resolve, RootQuery.company.resolve, lookup, toStr,
        axios.get, axios.request, Promise.andThen, hu, hc]
    · unfold execute
      rw [hv2]
      simp [executeFields, executeField, completeField, Selection.field, schema,
        RootQuery, RootQuery.user.resolve, RootQuery.company.resolve, lookup, toStr,
        axios.get, axios.request, Promise.andThen, hu, hc]
    · simp [RootQuery.company.resolve, lookup, toStr, axios.get, axios.request,
        Promise.andThen, hc]
  · intro hc hu
    refine ⟨?_, ?_, ?_⟩
    · unfold execute
      rw [hv1]
      simp [executeFields, executeField, completeField, Selection.field, schema,
        RootQuery, RootQuery.user.resolve, RootQuery.company.resolve, lookup, toStr,
        axios.get, axios.request, Promise.andThen, hu, hc]
    · unfold execute
      rw [hv2]
      simp [executeFields, executeField, completeField, Selection.field, schema,
        RootQuery, RootQuery.user.resolve, RootQuery.company.resolve, lookup, toStr,
        axios.get, axios.request, Promise.andThen, hu, hc]
    · simp [RootQuery.user.resolve, lookup, toStr, axios.get, axios.request,
        Promise.andThen, hu]

/-- C7, amended, at a concrete input: the store has no user `9` and answers the
company request with the company `2`. -/
theorem sibling_failure_is_isolated_witness :
    execute keepScalar
        (storeFailingAt (fun req => req.url = "http://localhost:3000/users/9")
          (.obj [("id", .str "2"), ("name", .str "Acme"), ("description", .str "tools")]))
        schema.query
        [⟨"user", [("id", .str "9")], [⟨"firstName", [], []⟩]⟩,
          ⟨"company", [("id", .str "2")], [⟨"id", [], []⟩, ⟨"name", [], []⟩]⟩] =
      ⟨[⟨.GET, "http://localhost:3000/users/9", none⟩,
          ⟨.GET, "http://localhost:3000/companies/2", none⟩],
        some [("user", .null), ("company", .obj [("id", .str "2"), ("name", .str "Acme")])],
        [.fieldError [.key "user"] (.rejected (.status 404))]⟩ :=
  ((sibling_failure_is_isolated keepScalar
    (storeFailingAt (fun req => req.url = "http://localhost:3000/users/9")
      (.obj [("id", .str "2"), ("name", .str "Acme"), ("description", .str "tools")]))
    "9" "2" (.status 404)
    ⟨200, .obj [("id", .str "2"), ("name", .str "Acme"), ("description", .str "tools")]⟩
    [⟨"firstName", [], []⟩] [⟨"id", [], []⟩, ⟨"name", [], []⟩] rfl rfl).1 rfl rfl).1

/-- C8: when the store fails `DELETE /users/id`, the resolver of `deleteUser`
does not throw but hands the rejection to the engine, and every valid operation
`deleteUser(id) { ... }`, whatever its sub-fields and the serialisation of
scalars, ends with the field `deleteUser` set to `null` and one error at the
path of that field; the request was issued once. -/
theorem deleteUser_failure_is_a_field_error (serialize : Serializer) (store : Store)
    (id : String) (e : HttpError)
    (hfail : store ⟨.DELETE, "http://localhost:3000/users/" ++ id, none⟩ = .error e) :
    mutation.deleteUser.resolve store .undefined [("id", .str id)] =
        ⟨[⟨.DELETE, "http://localhost:3000/users/" ++ id, none⟩], .error (.rejected e)⟩ ∧
    ∀ S : List Selection,
      validate schema.mutation [⟨"deleteUser", [("id", .str id)], S⟩] = [] →
      execute serialize store schema.mutation [⟨"deleteUser", [("id", .str id)], S⟩] =
        ⟨[⟨.DELETE, "http://localhost:3000/users/" ++ id, none⟩],
          some [("deleteUser", .null)],
          [.fieldError [.key "deleteUser"] (.rejected e)]⟩ := by
  constructor
  · simp [mutation.deleteUser.resolve, lookup, toStr, axios.delete, axios.request,
      Promise.andThen, hfail]
  · intro S hvalid
    unfold execute
    rw [hvalid]
    simp [executeFields, executeField, Selection.field, schema, mutation,
      mutation.deleteUser.resolve, lookup, toStr, axios.delete, axios.request,
      Promise.andThen, hfail]

/-- C8, at a concrete input: `deleteUser(id: "9") { id }` against a store that
has no user `9`. -/
theorem deleteUser_failure_is_a_field_error_witness :
    execute keepScalar
        (storeFailingAt (fun req => req.url = "http://localhost:3000/users/9") .null)
        schema.mutation [⟨"deleteUser", [("id", .str "9")], [⟨"id", [], []⟩]⟩] =
      ⟨[⟨.DELETE, "http://localhost:3000/users/9", none⟩],
        some [("deleteUser", .null)],
        [.fieldError [.key "deleteUser"] (.rejected (.status 404))]⟩ :=
  (deleteUser_failure_is_a_field_error keepScalar
    (storeFailingAt (fun req => req.url = "http://localhost:3000/users/9") .null)
    "9" (.status 404) rfl).2 [⟨"id", [], []⟩] rfl

/-! ## Required arguments -/

theorem validate_mem (root : GraphQLObjectType) (sels : List Selection) (sel : Selection)
    (e : GraphQLError) (hsel : sel ∈ sels) (he : e ∈ validateSelection root sel) :
    e ∈ validate root sels :=
  List.mem_flatMap.mpr ⟨sel, hsel, he⟩

theorem execute_of_validation_error (serialize : Serializer) (store : Store)
    (root : GraphQLObjectType) (sels : List Selection) (e : GraphQLError)
    (he : e ∈ validate root sels) :
    (execute serialize store root sels).requests = [] ∧
      (execute serialize store root sels).data = none ∧
      e ∈ (execute serialize store root sels).errors := by
  unfold execute
  cases hv : validate root sels with
  | nil => rw [hv] at he; cases he
  | cons e' es => rw [hv] at he; exact ⟨rfl, rfl, he⟩

/-- C5: an operation on the mutation type in which `addUser` comes without
`firstName` or without `age`, or `deleteUser` or `editUser` without `id`, ends
with a validation error that names the field and the argument, with no data and
with no request issued; and the arguments the schema declares non-null are
exactly `addUser.firstName`, `addUser.age`, `deleteUser.id` and `editUser.id`,
the six others being nullable. -/
theorem required_arguments_are_enforced :
    (∀ (serialize : Serializer) (store : Store) (sels : List Selection) (sel : Selection)
        (a : String), sel ∈ sels →
      ((sel.field = "addUser" ∧ (a = "firstName" ∨ a = "age")) ∨
        ((sel.field = "deleteUser" ∨ sel.field = "editUser") ∧ a = "id")) →
      hasKey a sel.args = false →
      (execute serialize store schema.mutation sels).requests = [] ∧
      (execute serialize store schema.mutation sels).data = none ∧
      GraphQLError.missingArgument sel.field a ∈
        (execute serialize store schema.mutation sels).errors) ∧
    schema.requiredArguments =
      [("addUser", "firstName"), ("addUser", "age"), ("deleteUser", "id"), ("editUser", "id")] ∧
    schema.optionalArguments =
      [("user", "id"), ("company", "id"), ("addUser", "companyId"), ("editUser", "firstName"),
        ("editUser", "age"), ("editUser", "companyId")] := by
  refine ⟨?_, rfl, rfl⟩
  intro serialize store sels sel a hsel hcase hmiss
  apply execute_of_validation_error
  apply validate_mem _ _ sel _ hsel
  obtain ⟨field, args, S⟩ := sel
  simp only [Selection.field, Selection.args] at hcase hmiss ⊢
  rcases hcase with ⟨hf, ha | ha⟩ | ⟨hf | hf, ha⟩ <;> subst ha <;> subst hf <;>
    simp [validateSelection, schema, mutation, missingArguments, GraphQLType.isNonNull,
      hmiss, List.filter]
  left
  cases hasKey "firstName" args <;> simp

/-- C5, at a concrete input: `addUser(firstName: "Ann") { id }`, without
`age`. -/
theorem required_arguments_are_enforced_witness :
    (execute keepScalar (constStore .null) schema.mutation
        [⟨"addUser", [("firstName", .str "Ann")], [⟨"id", [], []⟩]⟩]).requests = [] ∧
    (execute keepScalar (constStore .null) schema.mutation
        [⟨"addUser", [("firstName", .str "Ann")], [⟨"id", [], []⟩]⟩]).data = none ∧
    GraphQLError.missingArgument "addUser" "age" ∈
      (execute keepScalar (constStore .null) schema.mutation
        [⟨"addUser", [("firstName", .str "Ann")], [⟨"id", [], []⟩]⟩]).errors :=
  required_arguments_are_enforced.1 keepScalar (constStore .null)
    [⟨"addUser", [("firstName", .str "Ann")], [⟨"id", [], []⟩]⟩]
    ⟨"addUser", [("firstName", .str "Ann")], [⟨"id", [], []⟩]⟩ "age"
    (List.mem_singleton.mpr rfl) (Or.inl ⟨rfl, Or.inr rfl⟩) rfl

/-! ## Ids are interpolated as they come -/

/-- C9, at the failing input: for the id `../companies/1` the request of
`deleteUser` is a `DELETE`, and that of `editUser` a `PATCH` with the arguments
as body, to the URL `http://localhost:3000/users/../companies/1`, in which the
id stands unencoded. -/
theorem mutation_url_can_leave_users :
    (mutation.deleteUser.resolve (constStore .null) .undefined
        [("id", .str "../companies/1")]).requests =
      [⟨.DELETE, "http://localhost:3000/users/../companies/1", none⟩] ∧
    (mutation.editUser.resolve (constStore .null) .undefined
        [("id", .str "../companies/1"), ("firstName", .str "Ann")]).requests =
      [⟨.PATCH, "http://localhost:3000/users/../companies/1",
        some (.obj [("id", .str "../companies/1"), ("firstName", .str "Ann")])⟩] :=
  ⟨rfl, rfl⟩

end SSGraphQL
